import Mathlib

set_option autoImplicit false

/-!
Verification development for the Momentum Journal TUI core
(Go sources: internal/tui/app.go, internal/tui/writing_pane.go,
internal/journal/journal.go).

The Go code is shallowly embedded: each Go type becomes a Lean structure,
each method a Lean function on that structure.  Machine integers (terminal
sizes) are modelled as `Int`; the Go expression
`int(float64(m.width) * 0.65)` is modelled as `65 * width / 100`, which
agrees with the IEEE-754 double computation for every realistic terminal
width (the double nearest to 0.65 is slightly above 13/20, and the product
error stays far below one unit for widths below 2^45, so truncation yields
exactly floor(13w/20) for all w in range).

The external bubbles textarea widget is modelled by a structure holding the
buffer content, a cursor index, and a focus flag.  Faithful to the library,
`update` ignores every key message while the widget is blurred, inserts
printable runes at the cursor while focused, and moves the cursor on arrow
keys; `Value` returns the content as a string.  Dimensional fields are
carried along because `SetSize` writes them.
-/

/-- Key messages (tea.KeyMsg): the constructors cover the key classes the
TUI distinguishes.  `char c` is a single-rune key whose Go `String()` is
that rune; `other s` is any named key (for example "up", "enter"). -/
inductive Key where
  | esc
  | tab
  | ctrlC
  | char (c : Char)
  | other (s : String)
deriving DecidableEq, Repr

/-- Go `msg.String()` for the keys modelled here. -/
def Key.str : Key → String
  | .esc => "esc"
  | .tab => "tab"
  | .ctrlC => "ctrl+c"
  | .char c => String.mk [c]
  | .other s => s

/-- Go `msg.Type == tea.KeyEsc`. -/
def Key.isEsc : Key → Bool
  | .esc => true
  | _ => false

/-- Model of the bubbles `textarea.Model` collaborator: content, cursor,
focus flag and the dimensions written by SetWidth/SetHeight. -/
structure Textarea where
  value : List Char
  cursor : Nat
  focused : Bool
  width : Int
  height : Int
deriving DecidableEq, Repr

/-- `textarea.New()` (blank, blurred until `Focus` is called). -/
def Textarea.new : Textarea :=
  { value := [], cursor := 0, focused := false, width := 0, height := 0 }

/-- `textarea.Focus()` (the returned Blink command is elided). -/
def Textarea.focus (t : Textarea) : Textarea := { t with focused := true }

/-- `textarea.Blur()`. -/
def Textarea.blur (t : Textarea) : Textarea := { t with focused := false }

/-- `textarea.Value()`. -/
def Textarea.Value (t : Textarea) : String := String.mk t.value

/-- `textarea.Update(msg)`: a blurred textarea ignores key input; a focused
one inserts runes at the cursor and moves the cursor on left/right. -/
def Textarea.update (t : Textarea) (k : Key) : Textarea :=
  if t.focused = false then t
  else
    match k with
    | .char c =>
        { t with value := t.value.take t.cursor ++ c :: t.value.drop t.cursor,
                 cursor := t.cursor + 1 }
    | .other s =>
        if s = "left" then { t with cursor := t.cursor - 1 }
        else if s = "right" then { t with cursor := min (t.cursor + 1) t.value.length }
        else t
    | _ => t

/-- writing_pane.go: `writingMode`. -/
inductive writingMode where
  | modeNormal
  | modeInsert
deriving DecidableEq, Repr

/-- writing_pane.go: `writingModel`. -/
structure writingModel where
  textarea : Textarea
  mode : writingMode
  width : Int
  height : Int
deriving DecidableEq, Repr

/-- writing_pane.go: `NewWritingModel` — mode starts Insert; the textarea is
focused during construction and then immediately blurred, so it ends up
blurred. -/
def NewWritingModel : writingModel :=
  { textarea := Textarea.new, mode := .modeInsert, width := 0, height := 0 }

/-- writing_pane.go: `SetSize` — the one-line mode indicator height (1) is
subtracted before sizing the textarea. -/
def writingModel.SetSize (m : writingModel) (w h : Int) : writingModel :=
  { m with width := w, height := h,
           textarea := { m.textarea with width := w, height := h - 1 } }

/-- writing_pane.go: `Update` — the Insert branch switches on the message
type (Esc versus anything else), the Normal branch on the message string,
exactly as the Go switch statements do. -/
def writingModel.Update (m : writingModel) (k : Key) : writingModel :=
  match m.mode with
  | .modeInsert =>
      if k.isEsc then { m with mode := .modeNormal, textarea := m.textarea.blur }
      else { m with textarea := m.textarea.update k }
  | .modeNormal =>
      if k.str = "i" then { m with mode := .modeInsert, textarea := m.textarea.focus }
      else if k.str = "a" ∨ k.str = "o" then m
      else if k.str = "h" ∨ k.str = "j" ∨ k.str = "k" ∨ k.str = "l"
              ∨ k.str = "up" ∨ k.str = "down" ∨ k.str = "left" ∨ k.str = "right" then
        { m with textarea := m.textarea.update k }
      else if k.str = "w" ∨ k.str = "b" ∨ k.str = "g" ∨ k.str = "G"
              ∨ k.str = "x" ∨ k.str = "d" ∨ k.str = "y" ∨ k.str = "p" then m
      else { m with textarea := m.textarea.update k }

/-- writing_pane.go: `Focus` — focuses the textarea only in Insert mode. -/
def writingModel.Focus (m : writingModel) : writingModel :=
  if m.mode = .modeInsert then { m with textarea := m.textarea.focus } else m

/-- writing_pane.go: `Blur`. -/
def writingModel.Blur (m : writingModel) : writingModel :=
  { m with textarea := m.textarea.blur }

/-- writing_pane.go: `WordCount` returns `len(m.textarea.Value())` — the
length of the content string, not a tokenized word count (for the ASCII
inputs considered here, Go byte length equals rune count). -/
def writingModel.WordCount (m : writingModel) : Nat :=
  m.textarea.Value.length

/-- The ASCII fragment of Go `unicode.IsSpace`, the separator predicate of
`strings.Fields`. -/
def goIsSpace (c : Char) : Bool :=
  c == ' ' || c == '\t' || c == '\n' || c == '\r' || c == '\x0b' || c == '\x0c'

/-- Split a rune list at every whitespace rune, keeping the (possibly
empty) chunks between separators. -/
def splitWS : List Char → List (List Char)
  | [] => [[]]
  | c :: cs =>
      if goIsSpace c then [] :: splitWS cs
      else
        match splitWS cs with
        | [] => [[c]]
        | w :: ws => (c :: w) :: ws

/-- journal.go: `CountWords` — `strings.Fields` splits around runs of
whitespace and drops empty tokens; the count of those tokens. -/
def CountWords (text : String) : Nat :=
  ((splitWS text.toList).filter (fun w => !w.isEmpty)).length

/-- app.go: `convoModel` (placeholder pane: dimensions only). -/
structure convoModel where
  width : Int
  height : Int
deriving DecidableEq, Repr

/-- app.go: `statusBarModel` (width only; no word-count field exists). -/
structure statusBarModel where
  width : Int
deriving DecidableEq, Repr

/-- The literal the status bar renders (app.go line 61). -/
def statusBarText : String :=
  "Status: Word Count 0/750 | [Tab] to switch panes | [q] to quit"

/-- app.go: `statusBarModel.View` — renders the fixed placeholder line; the
lipgloss Width style only pads the line, which is elided here. -/
def statusBarModel.View (_ : statusBarModel) : String := statusBarText

/-- Height in lines of the rendered status bar (`lipgloss.Height` of the
single-line render). -/
def statusBarHeight : Int := 1

/-- app.go: `focusState`. -/
inductive focusState where
  | writingPane
  | conversationPane
deriving DecidableEq, Repr

/-- app.go: `model` (lipgloss style fields are render-only constants and
are represented by the border-size constants below). -/
structure model where
  width : Int
  height : Int
  focusedPane : focusState
  writingModel : writingModel
  convoModel : convoModel
  statusBarModel : statusBarModel
  quitting : Bool
deriving DecidableEq, Repr

/-- `paneStyle.GetHorizontalBorderSize()` for the rounded border: 2. -/
def paneHorizontalBorderSize : Int := 2

/-- `paneStyle.GetVerticalBorderSize()` for the rounded border: 2. -/
def paneVerticalBorderSize : Int := 2

/-- app.go: `InitialModel` — zero dimensions, focus on the writing pane,
fresh sub-models, not quitting. -/
def InitialModel : model :=
  { width := 0, height := 0, focusedPane := .writingPane,
    writingModel := NewWritingModel,
    convoModel := { width := 0, height := 0 },
    statusBarModel := { width := 0 },
    quitting := false }

/-- The width computation of app.go `updateSizes` (lines 189-199): a 65/35
split with both panes clamped to a floor of 10; if the conversation pane
hits the floor the writing pane absorbs the rest.  Returns
(writingWidth, convoWidth). -/
def updateSizesWidths (width : Int) : Int × Int :=
  let w0 := 65 * width / 100
  let w1 := if w0 < 10 then 10 else w0
  if width - w1 < 10 then (width - 10, 10) else (w1, width - w1)

/-- app.go: `updateSizes` — computes the split and pushes frame-adjusted
sizes into the sub-models. -/
def model.updateSizes (m : model) : model :=
  let mainHeight := m.height - statusBarHeight
  let p := updateSizesWidths m.width
  { m with
    writingModel := m.writingModel.SetSize (p.1 - paneHorizontalBorderSize)
      (mainHeight - paneVerticalBorderSize),
    convoModel := { width := p.2 - paneHorizontalBorderSize,
                    height := mainHeight - paneVerticalBorderSize },
    statusBarModel := { width := m.width } }

/-- Messages reaching the main update loop. -/
inductive Msg where
  | key (k : Key)
  | windowSize (width height : Int)
deriving DecidableEq, Repr

/-- app.go: `model.Update` — the Boolean is `true` exactly when the step
emitted `tea.Quit`.  Quit keys are handled first, then Tab, then the rest
is delegated to the focused pane (the conversation pane ignores input). -/
def model.Update (m : model) (msg : Msg) : model × Bool :=
  match msg with
  | .windowSize w h => (({ m with width := w, height := h }).updateSizes, false)
  | .key k =>
      if k.str = "ctrl+c" ∨ k.str = "q" then ({ m with quitting := true }, true)
      else if k.str = "tab" then
        (if m.focusedPane = .writingPane then
          { m with focusedPane := .conversationPane,
                   writingModel := m.writingModel.Blur }
        else
          { m with focusedPane := .writingPane,
                   writingModel := m.writingModel.Focus }, false)
      else
        match m.focusedPane with
        | .writingPane => ({ m with writingModel := m.writingModel.Update k }, false)
        | .conversationPane => (m, false)

/-- The Bubble Tea event loop around `model.Update`: events are processed
in order and, per the framework contract for `tea.Quit`, processing stops
at the first step that emits the quit command. -/
def runLoop : model → List Msg → model
  | m, [] => m
  | m, e :: es =>
      let r := m.Update e
      if r.2 then r.1 else runLoop r.1 es

/-- All states reachable by folding the update function over a message
list from the initial model (a superset of the states the real loop
reaches, since it keeps processing after a quit). -/
def runAll (msgs : List Msg) : model :=
  msgs.foldl (fun m e => (m.Update e).1) InitialModel

/-- Whether processing `msg` in state `m` delivers an Escape key press to
the writing pane: the message is an Escape key (whose string "esc" is
neither a quit key nor Tab, so the shell delegates it) and the writing
pane holds focus. -/
def escToWriting (m : model) (msg : Msg) : Bool :=
  match msg with
  | .key k => k.isEsc && decide (m.focusedPane = .writingPane)
  | _ => false

/-- One instrumented step: alongside the state it tracks the flag "an
Escape reached the writing pane since the mode last became Insert" —
cleared whenever the mode transitions Normal to Insert, set whenever an
Escape is delivered to the writing pane. -/
def stepEsc (p : model × Bool) (e : Msg) : model × Bool :=
  let m2 := (p.1.Update e).1
  let flag2 :=
    if p.1.writingModel.mode = .modeNormal ∧ m2.writingModel.mode = .modeInsert then false
    else (p.2 || escToWriting p.1 e)
  (m2, flag2)

/-- The instrumented run from the initial state (flag starts false: the
session starts freshly in Insert mode). -/
def runEsc (msgs : List Msg) : model × Bool :=
  msgs.foldl stepEsc (InitialModel, false)

/-- C1: the writing pane word-count operation, evaluated on a session that
enters text "hello world" through the real key path (Esc, i, then the
runes), returns 11 — the character length of the buffer — while the
whitespace-tokenized count demanded by the claim (and computed by the
journal collaborator CountWords) is 2 on that buffer, 0 on the empty
buffer and 2 on "  multiple   spaces  ".  The code measures raw length,
contradicting its own declared intent. -/
theorem wordCount_returns_char_length :
    (List.foldl writingModel.Update NewWritingModel
      (Key.esc :: Key.char 'i' :: ("hello world".toList.map Key.char))).WordCount = 11
    ∧ CountWords "hello world" = 2
    ∧ CountWords "" = 0
    ∧ CountWords "  multiple   spaces  " = 2 := by decide

/-- C2: for every terminal width of at least 20 (the height does not enter
the width computation), the two pane widths computed by updateSizes sum to
the terminal width and are each at least 10. -/
theorem updateSizesWidths_sum_and_floor (w h : Int) (hw : 20 ≤ w) (_hh : 5 ≤ h) :
    (updateSizesWidths w).1 + (updateSizesWidths w).2 = w
    ∧ 10 ≤ (updateSizesWidths w).1
    ∧ 10 ≤ (updateSizesWidths w).2 := by
  have h13 : 13 ≤ 65 * w / 100 := by omega
  have hub : 65 * w / 100 ≤ w - 7 := by omega
  simp only [updateSizesWidths]
  split_ifs <;> simp <;> omega

theorem updateSizesWidths_sum_and_floor_witness :
    (20 : Int) ≤ 120 ∧ (5 : Int) ≤ 40
    ∧ ((updateSizesWidths 120).1 + (updateSizesWidths 120).2 = 120
       ∧ 10 ≤ (updateSizesWidths 120).1
       ∧ 10 ≤ (updateSizesWidths 120).2) :=
  ⟨by decide, by decide,
    updateSizesWidths_sum_and_floor 120 40 (by decide) (by decide)⟩

/-- C3 counterexample: at terminal width 15 the two pane widths are not
both 10 — the writing pane ends up at 5, not 10. -/
theorem width15_not_both_ten :
    ¬ ((updateSizesWidths 15).1 = 10 ∧ (updateSizesWidths 15).2 = 10) := by decide

/-- C3 amended: at terminal width 15 the conversation pane is clamped to
exactly 10, the writing pane absorbs the remaining 5 columns, and neither
computed width is negative. -/
theorem width15_convo_clamped_writing_absorbs :
    (updateSizesWidths 15).2 = 10
    ∧ (updateSizesWidths 15).1 = 15 - 10
    ∧ 0 ≤ (updateSizesWidths 15).1
    ∧ 0 ≤ (updateSizesWidths 15).2 := by decide

/-- C4: the writing pane starts in Insert mode; Escape in Insert mode
yields Normal; a further Escape in Normal mode leaves the mode Normal; the
key i in Normal mode yields Insert again. -/
theorem mode_state_machine :
    NewWritingModel.mode = .modeInsert
    ∧ (∀ m : writingModel, m.mode = .modeInsert →
        (m.Update Key.esc).mode = .modeNormal)
    ∧ (∀ m : writingModel, m.mode = .modeNormal →
        (m.Update Key.esc).mode = .modeNormal)
    ∧ (∀ m : writingModel, m.mode = .modeNormal →
        (m.Update (Key.char 'i')).mode = .modeInsert) := by
  refine ⟨rfl, fun m h => ?_, fun m h => ?_, fun m h => ?_⟩ <;>
    simp [writingModel.Update, h, Key.isEsc, Key.str, Textarea.update,
      Textarea.blur, Textarea.focus]

theorem mode_state_machine_witness :
    NewWritingModel.mode = .modeInsert
    ∧ (NewWritingModel.Update Key.esc).mode = .modeNormal
    ∧ ((NewWritingModel.Update Key.esc).Update Key.esc).mode = .modeNormal
    ∧ ((NewWritingModel.Update Key.esc).Update (Key.char 'i')).mode = .modeInsert :=
  ⟨mode_state_machine.1,
    mode_state_machine.2.1 NewWritingModel (by decide),
    mode_state_machine.2.2.1 (NewWritingModel.Update Key.esc) (by decide),
    mode_state_machine.2.2.2 (NewWritingModel.Update Key.esc) (by decide)⟩

/-- C5: from any state, Tab changes the focused pane, and two consecutive
Tabs restore the original focused pane. -/
theorem tab_toggles_focus (m : model) :
    (m.Update (Msg.key Key.tab)).1.focusedPane ≠ m.focusedPane
    ∧ ((m.Update (Msg.key Key.tab)).1.Update (Msg.key Key.tab)).1.focusedPane
        = m.focusedPane := by
  cases hf : m.focusedPane <;>
    simp [model.Update, Key.str, hf, writingModel.Blur, writingModel.Focus]

theorem tab_toggles_focus_witness :
    (InitialModel.Update (Msg.key Key.tab)).1.focusedPane ≠ InitialModel.focusedPane
    ∧ ((InitialModel.Update (Msg.key Key.tab)).1.Update (Msg.key Key.tab)).1.focusedPane
        = InitialModel.focusedPane :=
  tab_toggles_focus InitialModel

/-- C10: in every state, a q or ctrl+c key event is consumed by the shell:
the whole effect is setting quitting (plus the emitted quit command), so
neither pane ever receives the event — in particular a q typed while the
writing pane is in Insert mode is never inserted into the buffer. -/
theorem quit_keys_consumed_by_shell (m : model) :
    (m.Update (Msg.key (Key.char 'q'))).1 = { m with quitting := true }
    ∧ (m.Update (Msg.key Key.ctrlC)).1 = { m with quitting := true }
    ∧ (m.Update (Msg.key (Key.char 'q'))).1.writingModel = m.writingModel
    ∧ (m.Update (Msg.key (Key.char 'q'))).2 = true
    ∧ (m.Update (Msg.key Key.ctrlC)).2 = true := by
  refine ⟨rfl, rfl, rfl, rfl, rfl⟩

theorem quit_keys_consumed_by_shell_witness :
    (InitialModel.Update (Msg.key (Key.char 'q'))).1
        = { InitialModel with quitting := true }
    ∧ (InitialModel.Update (Msg.key Key.ctrlC)).1
        = { InitialModel with quitting := true }
    ∧ (InitialModel.Update (Msg.key (Key.char 'q'))).1.writingModel
        = InitialModel.writingModel
    ∧ (InitialModel.Update (Msg.key (Key.char 'q'))).2 = true
    ∧ (InitialModel.Update (Msg.key Key.ctrlC)).2 = true :=
  quit_keys_consumed_by_shell InitialModel

/-- C9: the rendered status line is a fixed value: the View of the status
bar is the constant placeholder text in every state, and after a session
(Tab to the conversation pane, Tab back — which focuses the textarea —
then typing "hello world") whose buffer tokenizes to 2 words, the status
bar still renders the hardcoded "0/750" line; no word count is ever pushed
into statusBarModel. -/
theorem statusBar_renders_fixed_text :
    (∀ s : statusBarModel, s.View = statusBarText)
    ∧ (runAll (Msg.key Key.tab :: Msg.key Key.tab ::
        ("hello world".toList.map (fun c => Msg.key (Key.char c))))).writingModel.textarea.value
        = "hello world".toList
    ∧ CountWords (String.mk (runAll (Msg.key Key.tab :: Msg.key Key.tab ::
        ("hello world".toList.map (fun c => Msg.key (Key.char c))))).writingModel.textarea.value)
        = 2
    ∧ (runAll (Msg.key Key.tab :: Msg.key Key.tab ::
        ("hello world".toList.map (fun c => Msg.key (Key.char c))))).statusBarModel.View
        = "Status: Word Count 0/750 | [Tab] to switch panes | [q] to quit" :=
  ⟨fun _ => rfl, by decide, by decide, by decide⟩

/-- C6: the quit keys set quitting; quitting is monotonic under every
message; and the loop stops at a quit key — the final state after a quit
key is the post-quit state no matter what events follow, so no later key
event can touch either pane. -/
theorem quit_monotonic_and_loop_stops :
    (∀ m : model, (m.Update (Msg.key (Key.char 'q'))).1.quitting = true
      ∧ (m.Update (Msg.key Key.ctrlC)).1.quitting = true)
    ∧ (∀ (m : model) (e : Msg), m.quitting = true → (m.Update e).1.quitting = true)
    ∧ (∀ (m : model) (es : List Msg),
        runLoop m (Msg.key (Key.char 'q') :: es)
          = (m.Update (Msg.key (Key.char 'q'))).1
        ∧ runLoop m (Msg.key Key.ctrlC :: es)
          = (m.Update (Msg.key Key.ctrlC)).1) := by
  refine ⟨fun m => ⟨rfl, rfl⟩, ?_, fun m es => ⟨rfl, rfl⟩⟩
  intro m e h
  cases e with
  | windowSize w2 h2 =>
      simp [model.Update, model.updateSizes, writingModel.SetSize, h]
  | key k =>
      cases hf : m.focusedPane <;>
        simp only [model.Update, hf] <;> split_ifs <;> simp [h]

theorem quit_monotonic_and_loop_stops_witness :
    ((InitialModel.Update (Msg.key (Key.char 'q'))).1.quitting = true)
    ∧ (((InitialModel.Update (Msg.key (Key.char 'q'))).1.Update
        (Msg.key Key.tab)).1.quitting = true)
    ∧ (runLoop InitialModel [Msg.key (Key.char 'q'), Msg.key Key.tab]
        = (InitialModel.Update (Msg.key (Key.char 'q'))).1) :=
  ⟨(quit_monotonic_and_loop_stops.1 InitialModel).1,
    quit_monotonic_and_loop_stops.2.1 (InitialModel.Update (Msg.key (Key.char 'q'))).1
      (Msg.key Key.tab) (by decide),
    (quit_monotonic_and_loop_stops.2.2 InitialModel [Msg.key Key.tab]).1⟩

/-- If the writing pane is in Insert mode and the step delivers an Escape
to it, the mode after the step is Normal. -/
theorem esc_in_insert_gives_normal (m : model) (e : Msg)
    (hm : m.writingModel.mode = .modeInsert) (he : escToWriting m e = true) :
    (m.Update e).1.writingModel.mode = .modeNormal := by
  cases e with
  | windowSize w h => simp [escToWriting] at he
  | key k =>
      cases k with
      | esc =>
          simp only [escToWriting, Key.isEsc, Bool.true_and, decide_eq_true_eq] at he
          simp [model.Update, Key.str, he, writingModel.Update, hm, Key.isEsc]
      | tab => simp [escToWriting, Key.isEsc] at he
      | ctrlC => simp [escToWriting, Key.isEsc] at he
      | char c => simp [escToWriting, Key.isEsc] at he
      | other s => simp [escToWriting, Key.isEsc] at he

/-- One instrumented step preserves the invariant "Insert mode implies the
escape-since-Insert flag is clear". -/
theorem stepEsc_preserves (p : model × Bool) (e : Msg)
    (h : p.1.writingModel.mode = .modeInsert → p.2 = false) :
    (stepEsc p e).1.writingModel.mode = .modeInsert → (stepEsc p e).2 = false := by
  intro hins
  simp only [stepEsc] at hins ⊢
  by_cases hb : p.1.writingModel.mode = .modeNormal
      ∧ ((p.1.Update e).1).writingModel.mode = .modeInsert
  · simp [hb]
  · have hold : p.1.writingModel.mode = .modeInsert := by
      cases hmm : p.1.writingModel.mode
      · exact absurd ⟨hmm, hins⟩ hb
      · rfl
    have hesc : escToWriting p.1 e = false := by
      by_contra hc
      have hc2 : escToWriting p.1 e = true := by
        revert hc
        cases escToWriting p.1 e <;> simp
      have hnorm := esc_in_insert_gives_normal p.1 e hold hc2
      rw [hnorm] at hins
      exact writingMode.noConfusion hins
    simp [hb, h hold, hesc]

/-- The invariant holds along every instrumented fold. -/
theorem foldl_stepEsc_inv (p : model × Bool) (msgs : List Msg)
    (h : p.1.writingModel.mode = .modeInsert → p.2 = false) :
    (msgs.foldl stepEsc p).1.writingModel.mode = .modeInsert →
    (msgs.foldl stepEsc p).2 = false := by
  induction msgs generalizing p with
  | nil => simpa using h
  | cons e es ih => exact ih (stepEsc p e) (stepEsc_preserves p e h)

/-- C7 counterexample: one Tab from the initial state reaches a state
whose focused pane is the conversation pane while the writing pane mode is
still Insert — so Insert mode does not entail writing-pane focus. -/
theorem insert_mode_while_conversation_focused :
    (runAll [Msg.key Key.tab]).focusedPane = .conversationPane
    ∧ (runAll [Msg.key Key.tab]).writingModel.mode = .modeInsert := by decide

/-- C7 amended: in every reachable state the writing pane mode is Insert
only if no Escape key has been delivered to the writing pane since the
mode last became Insert (the focus conjunct of the original claim is
dropped: Tab changes focus without touching the mode). -/
theorem insert_implies_no_esc_since (msgs : List Msg) :
    (runEsc msgs).1.writingModel.mode = .modeInsert → (runEsc msgs).2 = false :=
  foldl_stepEsc_inv (InitialModel, false) msgs (fun _ => rfl)

theorem insert_implies_no_esc_since_witness :
    (runEsc []).1.writingModel.mode = .modeInsert ∧ (runEsc []).2 = false :=
  ⟨by decide, insert_implies_no_esc_since [] (by decide)⟩

/-- A blurred textarea ignores every key message. -/
theorem Textarea.update_blurred (t : Textarea) (k : Key) (h : t.focused = false) :
    t.update k = t := by
  simp [Textarea.update, h]

/-- While the underlying textarea is blurred, no key processed by the
writing pane changes the buffer content. -/
theorem writingModel.update_value_blurred (m : writingModel) (k : Key)
    (h : m.textarea.focused = false) :
    (m.Update k).textarea.value = m.textarea.value := by
  cases hm : m.mode <;>
    simp only [writingModel.Update, hm] <;> split_ifs <;>
      simp [Textarea.update_blurred _ _ h, Textarea.focus, Textarea.blur]

/-- Pane-level preservation of "Normal mode implies blurred textarea". -/
theorem writingModel.update_normal_blurred (m : writingModel) (k : Key)
    (h : m.mode = .modeNormal → m.textarea.focused = false) :
    (m.Update k).mode = .modeNormal → (m.Update k).textarea.focused = false := by
  cases hm : m.mode with
  | modeInsert =>
      simp only [writingModel.Update, hm]
      split_ifs
      · exact fun _ => rfl
      · exact fun hx => hx.elim
  | modeNormal =>
      have hb := h hm
      simp only [writingModel.Update, hm]
      split_ifs
      · exact fun hx => hx.elim
      · exact fun _ => hb
      · exact fun _ => by rw [Textarea.update_blurred _ _ hb]; exact hb
      · exact fun _ => hb
      · exact fun _ => by rw [Textarea.update_blurred _ _ hb]; exact hb

/-- Shell-level preservation of "Normal mode implies blurred textarea". -/
theorem model.update_keeps_normal_blurred (m : model) (e : Msg)
    (h : m.writingModel.mode = .modeNormal → m.writingModel.textarea.focused = false) :
    (m.Update e).1.writingModel.mode = .modeNormal →
    (m.Update e).1.writingModel.textarea.focused = false := by
  cases e with
  | windowSize w2 h2 =>
      simpa [model.Update, model.updateSizes, writingModel.SetSize] using h
  | key k =>
      cases hf : m.focusedPane with
      | writingPane =>
          simp only [model.Update, hf]
          split_ifs with h1 h2
          · exact h
          · exact fun _ => rfl
          · exact writingModel.update_normal_blurred m.writingModel k h
      | conversationPane =>
          simp only [model.Update, hf]
          split_ifs with h1 h2 h3
          · exact h
          · exact h3.elim
          · simp only [writingModel.Focus]
            split_ifs with hmm
            · exact fun hx => writingMode.noConfusion (hmm.symm.trans hx)
            · exact h
          · exact h

/-- Every shell-reachable state keeps a blurred textarea while the writing
pane is in Normal mode. -/
theorem runAll_normal_blurred (msgs : List Msg) :
    (runAll msgs).writingModel.mode = .modeNormal →
    (runAll msgs).writingModel.textarea.focused = false := by
  have main : ∀ (p : model), (p.writingModel.mode = .modeNormal →
      p.writingModel.textarea.focused = false) →
      ((msgs.foldl (fun m e => (m.Update e).1) p).writingModel.mode = .modeNormal →
       (msgs.foldl (fun m e => (m.Update e).1) p).writingModel.textarea.focused = false) := by
    induction msgs with
    | nil => intro p h; simpa using h
    | cons e es ih =>
        intro p h
        exact ih (p.Update e).1 (model.update_keeps_normal_blurred p e h)
  exact main InitialModel (fun hx => by simp [InitialModel, NewWritingModel] at hx)

/-- C8: in Normal mode each verb key (w b g G x d y p) is consumed with no
effect at all on the writing pane — buffer, cursor and mode are unchanged
because the updated pane equals the old one — and, from any reachable
state in Normal mode, pressing d and then any other key leaves the buffer
content unchanged. -/
theorem normal_verbs_are_noops :
    (∀ (m : writingModel) (k : Key), m.mode = .modeNormal →
      (k.str = "w" ∨ k.str = "b" ∨ k.str = "g" ∨ k.str = "G"
        ∨ k.str = "x" ∨ k.str = "d" ∨ k.str = "y" ∨ k.str = "p") →
      m.Update k = m)
    ∧ (∀ (msgs : List Msg) (k : Key),
        (runAll msgs).writingModel.mode = .modeNormal →
        (((runAll msgs).writingModel.Update (Key.char 'd')).Update k).textarea.value
          = (runAll msgs).writingModel.textarea.value) := by
  have part1 : ∀ (m : writingModel) (k : Key), m.mode = .modeNormal →
      (k.str = "w" ∨ k.str = "b" ∨ k.str = "g" ∨ k.str = "G"
        ∨ k.str = "x" ∨ k.str = "d" ∨ k.str = "y" ∨ k.str = "p") →
      m.Update k = m := by
    intro m k hm hv
    rcases hv with h | h | h | h | h | h | h | h <;>
      simp [writingModel.Update, hm, h]
  refine ⟨part1, ?_⟩
  intro msgs k hm
  have hb := runAll_normal_blurred msgs hm
  have hd : (runAll msgs).writingModel.Update (Key.char 'd')
      = (runAll msgs).writingModel :=
    part1 _ (Key.char 'd') hm (by simp [Key.str])
  rw [hd]
  exact writingModel.update_value_blurred _ k hb

theorem normal_verbs_are_noops_witness :
    ((runAll [Msg.key Key.esc]).writingModel.mode = .modeNormal)
    ∧ ((runAll [Msg.key Key.esc]).writingModel.Update (Key.char 'x')
        = (runAll [Msg.key Key.esc]).writingModel)
    ∧ ((((runAll [Msg.key Key.esc]).writingModel.Update (Key.char 'd')).Update
        (Key.char 'z')).textarea.value
        = (runAll [Msg.key Key.esc]).writingModel.textarea.value) :=
  ⟨by decide,
    normal_verbs_are_noops.1 _ (Key.char 'x') (by decide) (by decide),
    normal_verbs_are_noops.2 [Msg.key Key.esc] (Key.char 'z') (by decide)⟩
